import Mathlib

/-!
Goo: constants, parameter tables and data layout.

A shallow embedding of `src/goo/internal.h`: the preprocessor constants, the
domain-separation tags, the shipped moduli and the record types of the
library, together with the properties the specification states about them.

Conventions of the embedding:

* `unsigned char` arrays are lists of naturals (`c_array` gives the declared
  size and the initialisers); every entry is checked to be a byte;
* `mpz_t` and `long` are `Int`, `size_t` and `unsigned long` are `Nat`;
* fixed-size C arrays inside records are lists whose length is part of the
  well-formedness predicate of the record;
* the types `goo_drbg_t` and `goo_sha256_t` come from other headers and are
  taken as type parameters.
-/

namespace Goo

/-! ## Preprocessor constants -/

/-- Header macro: `#define GOO_DEFAULT_G 2`. -/
def GOO_DEFAULT_G : Nat := 2

/-- Header macro: `#define GOO_DEFAULT_H 3`. -/
def GOO_DEFAULT_H : Nat := 3

/-- Header macro: `#define GOO_MIN_RSA_BITS 1024`. -/
def GOO_MIN_RSA_BITS : Nat := 1024

/-- Header macro: `#define GOO_MAX_RSA_BITS 4096`. -/
def GOO_MAX_RSA_BITS : Nat := 4096

/-- Header macro: `#define GOO_EXP_BITS 2048`. -/
def GOO_EXP_BITS : Nat := 2048

/-- Header macro: `#define GOO_WINDOW_SIZE 6`. -/
def GOO_WINDOW_SIZE : Nat := 6

/-- Header macro: `#define GOO_MAX_COMB_SIZE 512`. -/
def GOO_MAX_COMB_SIZE : Nat := 512

/-- Header macro: `#define GOO_CHAL_BITS 128`. -/
def GOO_CHAL_BITS : Nat := 128

/-- Header macro: `#define GOO_ELL_BITS 136`. -/
def GOO_ELL_BITS : Nat := 136

/-- Header macro: `#define GOO_ELLDIFF_MAX 512`. -/
def GOO_ELLDIFF_MAX : Nat := 512

/-- Header macro: `#define GOO_TABLEN (1 << (GOO_WINDOW_SIZE - 2))`. -/
def GOO_TABLEN : Nat := 1 <<< (GOO_WINDOW_SIZE - 2)

/-- Header macro: `#define GOO_MIN_RSA_BYTES ((GOO_MIN_RSA_BITS + 7) / 8)`. -/
def GOO_MIN_RSA_BYTES : Nat := (GOO_MIN_RSA_BITS + 7) / 8

/-- Header macro: `#define GOO_MAX_RSA_BYTES ((GOO_MAX_RSA_BITS + 7) / 8)`. -/
def GOO_MAX_RSA_BYTES : Nat := (GOO_MAX_RSA_BITS + 7) / 8

/-- Header macro: `#define GOO_EXP_BYTES ((GOO_EXP_BITS + 7) / 8)`. -/
def GOO_EXP_BYTES : Nat := (GOO_EXP_BITS + 7) / 8

/-- Header macro: `#define GOO_CHAL_BYTES ((GOO_CHAL_BITS + 7) / 8)`. -/
def GOO_CHAL_BYTES : Nat := (GOO_CHAL_BITS + 7) / 8

/-- Header macro: `#define GOO_ELL_BYTES ((GOO_ELL_BITS + 7) / 8)`. -/
def GOO_ELL_BYTES : Nat := (GOO_ELL_BITS + 7) / 8

/-- The expression shared by the five `GOO_*_BYTES` macros, as a function of
the bit count: `(bits + 7) / 8` with truncating division. -/
def bits_to_bytes (bits : Nat) : Nat := (bits + 7) / 8

/-! ## Byte arrays -/

/-- A C array `unsigned char name[n] = { ... }`: the initialisers in order,
followed by zero bytes up to the declared size `n`. -/
def c_array (n : Nat) (init : List Nat) : List Nat :=
  init ++ List.replicate (n - init.length) 0

/-- Every entry of the array is a value of `unsigned char`. -/
def all_bytes (bs : List Nat) : Bool := bs.all fun b => decide (b < 256)

/-- The unsigned integer a byte string denotes when read big-endian, most
significant byte first. -/
def be_uint (bs : List Nat) : Nat := bs.foldl (fun acc b => acc * 256 + b) 0

/-! ## Domain-separation tags -/

/-- Domain tag of the group hash; the header documents it as SHA256("Goo Signature"). -/
def GOO_HASH_PREFIX : List Nat := c_array 32 [
  0xc8, 0x30, 0xd5, 0xfd, 0xdc, 0xb2, 0x23, 0xcd,
  0x86, 0x00, 0x7a, 0xbf, 0x91, 0xc4, 0x40, 0x27,
  0x6b, 0x00, 0x80, 0x66, 0xbc, 0xb6, 0x45, 0x91,
  0xef, 0x80, 0x61, 0xc8, 0x9c, 0x1c, 0x58, 0x82
]

/-- Domain tag; the header documents it as SHA256("Goo Expand"). -/
def GOO_PRNG_EXPAND : List Nat := c_array 32 [
  0x21, 0xa2, 0x7e, 0xd5, 0xef, 0xc0, 0x95, 0x45,
  0x0b, 0x7b, 0x4d, 0xdb, 0x61, 0x30, 0x49, 0x1f,
  0x24, 0x17, 0xec, 0x25, 0x8e, 0xb2, 0xf4, 0xb7,
  0xb2, 0xa6, 0xa9, 0x36, 0xf7, 0xcf, 0xec, 0xfb
]

/-- Domain tag; the header documents it as SHA256("Goo Derive"). -/
def GOO_PRNG_DERIVE : List Nat := c_array 32 [
  0x99, 0x89, 0x61, 0x8e, 0x45, 0x0e, 0x09, 0xfb,
  0xed, 0x0b, 0xc9, 0x51, 0xa3, 0xb3, 0x09, 0xa9,
  0xb5, 0xd2, 0xba, 0xe3, 0xdb, 0x76, 0x96, 0xb7,
  0x6a, 0x89, 0x42, 0x81, 0xe5, 0x65, 0x34, 0xaf
]

/-- Domain tag; the header documents it as SHA256("Goo Primality"). -/
def GOO_PRNG_PRIMALITY : List Nat := c_array 32 [
  0xf3, 0x31, 0x84, 0xc5, 0x6d, 0x6c, 0xc4, 0xf6,
  0x0e, 0x39, 0x62, 0xa3, 0xad, 0xa4, 0xef, 0x03,
  0x97, 0xa6, 0xd6, 0x0f, 0x14, 0xc1, 0xc3, 0xa6,
  0xd8, 0xa1, 0xe6, 0x7e, 0xb4, 0x33, 0x48, 0x55
]

/-- Domain tag; the header documents it as SHA256("Goo Sign"). -/
def GOO_PRNG_SIGN : List Nat := c_array 32 [
  0x22, 0xe6, 0x4a, 0x95, 0x3d, 0x87, 0x74, 0x2d,
  0x7c, 0xe6, 0xdd, 0x66, 0x3d, 0x4c, 0xea, 0xf3,
  0x55, 0xce, 0xa1, 0x74, 0x6a, 0xb8, 0x12, 0x20,
  0x66, 0x68, 0xa1, 0xb2, 0xf1, 0xe3, 0x2d, 0xb3
]

/-- Domain tag; the header documents it as SHA256("Goo Encrypt"). -/
def GOO_PRNG_ENCRYPT : List Nat := c_array 32 [
  0xc5, 0xba, 0xf3, 0x82, 0xd5, 0xf1, 0xee, 0x45,
  0xbc, 0xab, 0xab, 0x07, 0xdb, 0xd8, 0xee, 0x7d,
  0x85, 0xed, 0x78, 0x68, 0x61, 0xd4, 0x21, 0xc7,
  0xc2, 0xfb, 0x55, 0x90, 0xf0, 0x85, 0x61, 0xb4
]

/-- Domain tag; the header documents it as SHA256("Goo Decrypt"). -/
def GOO_PRNG_DECRYPT : List Nat := c_array 32 [
  0x19, 0x03, 0x6b, 0xc4, 0x38, 0xd5, 0x8c, 0x14,
  0x34, 0x5c, 0x41, 0x94, 0xc5, 0x24, 0x7f, 0xf9,
  0xcf, 0x27, 0xc7, 0xef, 0x47, 0xe6, 0xf4, 0xc3,
  0xf4, 0x1a, 0x01, 0xc7, 0x8d, 0x58, 0x3e, 0xe7
]

/-- Domain tag; the header documents it as SHA256("Goo Local"). -/
def GOO_PRNG_LOCAL : List Nat := c_array 32 [
  0x21, 0x15, 0x7f, 0x0d, 0xbe, 0x3e, 0x90, 0x38,
  0xde, 0xa5, 0xd7, 0xdb, 0xf9, 0x28, 0x90, 0x01,
  0xe5, 0x5a, 0xa5, 0x75, 0xd2, 0xb3, 0x10, 0x67,
  0x5d, 0x34, 0x34, 0x51, 0x40, 0xad, 0x68, 0x8e
]

/-! ## Moduli of unknown factorization -/

/-- America Online Root CA 1 (2048), big-endian bytes of the modulus. -/
def GOO_AOL1 : List Nat := c_array 256 [
  0xa8, 0x2f, 0xe8, 0xa4, 0x69, 0x06, 0x03, 0x47,
  0xc3, 0xe9, 0x2a, 0x98, 0xff, 0x19, 0xa2, 0x70,
  0x9a, 0xc6, 0x50, 0xb2, 0x7e, 0xa5, 0xdf, 0x68,
  0x4d, 0x1b, 0x7c, 0x0f, 0xb6, 0x97, 0x68, 0x7d,
  0x2d, 0xa6, 0x8b, 0x97, 0xe9, 0x64, 0x86, 0xc9,
  0xa3, 0xef, 0xa0, 0x86, 0xbf, 0x60, 0x65, 0x9c,
  0x4b, 0x54, 0x88, 0xc2, 0x48, 0xc5, 0x4a, 0x39,
  0xbf, 0x14, 0xe3, 0x59, 0x55, 0xe5, 0x19, 0xb4,
  0x74, 0xc8, 0xb4, 0x05, 0x39, 0x5c, 0x16, 0xa5,
  0xe2, 0x95, 0x05, 0xe0, 0x12, 0xae, 0x59, 0x8b,
  0xa2, 0x33, 0x68, 0x58, 0x1c, 0xa6, 0xd4, 0x15,
  0xb7, 0xd8, 0x9f, 0xd7, 0xdc, 0x71, 0xab, 0x7e,
  0x9a, 0xbf, 0x9b, 0x8e, 0x33, 0x0f, 0x22, 0xfd,
  0x1f, 0x2e, 0xe7, 0x07, 0x36, 0xef, 0x62, 0x39,
  0xc5, 0xdd, 0xcb, 0xba, 0x25, 0x14, 0x23, 0xde,
  0x0c, 0xc6, 0x3d, 0x3c, 0xce, 0x82, 0x08, 0xe6,
  0x66, 0x3e, 0xda, 0x51, 0x3b, 0x16, 0x3a, 0xa3,
  0x05, 0x7f, 0xa0, 0xdc, 0x87, 0xd5, 0x9c, 0xfc,
  0x72, 0xa9, 0xa0, 0x7d, 0x78, 0xe4, 0xb7, 0x31,
  0x55, 0x1e, 0x65, 0xbb, 0xd4, 0x61, 0xb0, 0x21,
  0x60, 0xed, 0x10, 0x32, 0x72, 0xc5, 0x92, 0x25,
  0x1e, 0xf8, 0x90, 0x4a, 0x18, 0x78, 0x47, 0xdf,
  0x7e, 0x30, 0x37, 0x3e, 0x50, 0x1b, 0xdb, 0x1c,
  0xd3, 0x6b, 0x9a, 0x86, 0x53, 0x07, 0xb0, 0xef,
  0xac, 0x06, 0x78, 0xf8, 0x84, 0x99, 0xfe, 0x21,
  0x8d, 0x4c, 0x80, 0xb6, 0x0c, 0x82, 0xf6, 0x66,
  0x70, 0x79, 0x1a, 0xd3, 0x4f, 0xa3, 0xcf, 0xf1,
  0xcf, 0x46, 0xb0, 0x4b, 0x0f, 0x3e, 0xdd, 0x88,
  0x62, 0xb8, 0x8c, 0xa9, 0x09, 0x28, 0x3b, 0x7a,
  0xc7, 0x97, 0xe1, 0x1e, 0xe5, 0xf4, 0x9f, 0xc0,
  0xc0, 0xae, 0x24, 0xa0, 0xc8, 0xa1, 0xd9, 0x0f,
  0xd6, 0x7b, 0x26, 0x82, 0x69, 0x32, 0x3d, 0xa7
]

/-- America Online Root CA 2 (4096), big-endian bytes of the modulus. -/
def GOO_AOL2 : List Nat := c_array 512 [
  0xcc, 0x41, 0x45, 0x1d, 0xe9, 0x3d, 0x4d, 0x10,
  0xf6, 0x8c, 0xb1, 0x41, 0xc9, 0xe0, 0x5e, 0xcb,
  0x0d, 0xb7, 0xbf, 0x47, 0x73, 0xd3, 0xf0, 0x55,
  0x4d, 0xdd, 0xc6, 0x0c, 0xfa, 0xb1, 0x66, 0x05,
  0x6a, 0xcd, 0x78, 0xb4, 0xdc, 0x02, 0xdb, 0x4e,
  0x81, 0xf3, 0xd7, 0xa7, 0x7c, 0x71, 0xbc, 0x75,
  0x63, 0xa0, 0x5d, 0xe3, 0x07, 0x0c, 0x48, 0xec,
  0x25, 0xc4, 0x03, 0x20, 0xf4, 0xff, 0x0e, 0x3b,
  0x12, 0xff, 0x9b, 0x8d, 0xe1, 0xc6, 0xd5, 0x1b,
  0xb4, 0x6d, 0x22, 0xe3, 0xb1, 0xdb, 0x7f, 0x21,
  0x64, 0xaf, 0x86, 0xbc, 0x57, 0x22, 0x2a, 0xd6,
  0x47, 0x81, 0x57, 0x44, 0x82, 0x56, 0x53, 0xbd,
  0x86, 0x14, 0x01, 0x0b, 0xfc, 0x7f, 0x74, 0xa4,
  0x5a, 0xae, 0xf1, 0xba, 0x11, 0xb5, 0x9b, 0x58,
  0x5a, 0x80, 0xb4, 0x37, 0x78, 0x09, 0x33, 0x7c,
  0x32, 0x47, 0x03, 0x5c, 0xc4, 0xa5, 0x83, 0x48,
  0xf4, 0x57, 0x56, 0x6e, 0x81, 0x36, 0x27, 0x18,
  0x4f, 0xec, 0x9b, 0x28, 0xc2, 0xd4, 0xb4, 0xd7,
  0x7c, 0x0c, 0x3e, 0x0c, 0x2b, 0xdf, 0xca, 0x04,
  0xd7, 0xc6, 0x8e, 0xea, 0x58, 0x4e, 0xa8, 0xa4,
  0xa5, 0x18, 0x1c, 0x6c, 0x45, 0x98, 0xa3, 0x41,
  0xd1, 0x2d, 0xd2, 0xc7, 0x6d, 0x8d, 0x19, 0xf1,
  0xad, 0x79, 0xb7, 0x81, 0x3f, 0xbd, 0x06, 0x82,
  0x27, 0x2d, 0x10, 0x58, 0x05, 0xb5, 0x78, 0x05,
  0xb9, 0x2f, 0xdb, 0x0c, 0x6b, 0x90, 0x90, 0x7e,
  0x14, 0x59, 0x38, 0xbb, 0x94, 0x24, 0x13, 0xe5,
  0xd1, 0x9d, 0x14, 0xdf, 0xd3, 0x82, 0x4d, 0x46,
  0xf0, 0x80, 0x39, 0x52, 0x32, 0x0f, 0xe3, 0x84,
  0xb2, 0x7a, 0x43, 0xf2, 0x5e, 0xde, 0x5f, 0x3f,
  0x1d, 0xdd, 0xe3, 0xb2, 0x1b, 0xa0, 0xa1, 0x2a,
  0x23, 0x03, 0x6e, 0x2e, 0x01, 0x15, 0x87, 0x5c,
  0xa6, 0x75, 0x75, 0xc7, 0x97, 0x61, 0xbe, 0xde,
  0x86, 0xdc, 0xd4, 0x48, 0xdb, 0xbd, 0x2a, 0xbf,
  0x4a, 0x55, 0xda, 0xe8, 0x7d, 0x50, 0xfb, 0xb4,
  0x80, 0x17, 0xb8, 0x94, 0xbf, 0x01, 0x3d, 0xea,
  0xda, 0xba, 0x7c, 0xe0, 0x58, 0x67, 0x17, 0xb9,
  0x58, 0xe0, 0x88, 0x86, 0x46, 0x67, 0x6c, 0x9d,
  0x10, 0x47, 0x58, 0x32, 0xd0, 0x35, 0x7c, 0x79,
  0x2a, 0x90, 0xa2, 0x5a, 0x10, 0x11, 0x23, 0x35,
  0xad, 0x2f, 0xcc, 0xe4, 0x4a, 0x5b, 0xa7, 0xc8,
  0x27, 0xf2, 0x83, 0xde, 0x5e, 0xbb, 0x5e, 0x77,
  0xe7, 0xe8, 0xa5, 0x6e, 0x63, 0xc2, 0x0d, 0x5d,
  0x61, 0xd0, 0x8c, 0xd2, 0x6c, 0x5a, 0x21, 0x0e,
  0xca, 0x28, 0xa3, 0xce, 0x2a, 0xe9, 0x95, 0xc7,
  0x48, 0xcf, 0x96, 0x6f, 0x1d, 0x92, 0x25, 0xc8,
  0xc6, 0xc6, 0xc1, 0xc1, 0x0c, 0x05, 0xac, 0x26,
  0xc4, 0xd2, 0x75, 0xd2, 0xe1, 0x2a, 0x67, 0xc0,
  0x3d, 0x5b, 0xa5, 0x9a, 0xeb, 0xcf, 0x7b, 0x1a,
  0xa8, 0x9d, 0x14, 0x45, 0xe5, 0x0f, 0xa0, 0x9a,
  0x65, 0xde, 0x2f, 0x28, 0xbd, 0xce, 0x6f, 0x94,
  0x66, 0x83, 0x48, 0x29, 0xd8, 0xea, 0x65, 0x8c,
  0xaf, 0x93, 0xd9, 0x64, 0x9f, 0x55, 0x57, 0x26,
  0xbf, 0x6f, 0xcb, 0x37, 0x31, 0x99, 0xa3, 0x60,
  0xbb, 0x1c, 0xad, 0x89, 0x34, 0x32, 0x62, 0xb8,
  0x43, 0x21, 0x06, 0x72, 0x0c, 0xa1, 0x5c, 0x6d,
  0x46, 0xc5, 0xfa, 0x29, 0xcf, 0x30, 0xde, 0x89,
  0xdc, 0x71, 0x5b, 0xdd, 0xb6, 0x37, 0x3e, 0xdf,
  0x50, 0xf5, 0xb8, 0x07, 0x25, 0x26, 0xe5, 0xbc,
  0xb5, 0xfe, 0x3c, 0x02, 0xb3, 0xb7, 0xf8, 0xbe,
  0x43, 0xc1, 0x87, 0x11, 0x94, 0x9e, 0x23, 0x6c,
  0x17, 0x8a, 0xb8, 0x8a, 0x27, 0x0c, 0x54, 0x47,
  0xf0, 0xa9, 0xb3, 0xc0, 0x80, 0x8c, 0xa0, 0x27,
  0xeb, 0x1d, 0x19, 0xe3, 0x07, 0x8e, 0x77, 0x70,
  0xca, 0x2b, 0xf4, 0x7d, 0x76, 0xe0, 0x78, 0x67
]

/-- RSA-2048 Factoring Challenge (2048), big-endian bytes of the modulus. -/
def GOO_RSA2048 : List Nat := c_array 256 [
  0xc7, 0x97, 0x0c, 0xee, 0xdc, 0xc3, 0xb0, 0x75,
  0x44, 0x90, 0x20, 0x1a, 0x7a, 0xa6, 0x13, 0xcd,
  0x73, 0x91, 0x10, 0x81, 0xc7, 0x90, 0xf5, 0xf1,
  0xa8, 0x72, 0x6f, 0x46, 0x35, 0x50, 0xbb, 0x5b,
  0x7f, 0xf0, 0xdb, 0x8e, 0x1e, 0xa1, 0x18, 0x9e,
  0xc7, 0x2f, 0x93, 0xd1, 0x65, 0x00, 0x11, 0xbd,
  0x72, 0x1a, 0xee, 0xac, 0xc2, 0xac, 0xde, 0x32,
  0xa0, 0x41, 0x07, 0xf0, 0x64, 0x8c, 0x28, 0x13,
  0xa3, 0x1f, 0x5b, 0x0b, 0x77, 0x65, 0xff, 0x8b,
  0x44, 0xb4, 0xb6, 0xff, 0xc9, 0x33, 0x84, 0xb6,
  0x46, 0xeb, 0x09, 0xc7, 0xcf, 0x5e, 0x85, 0x92,
  0xd4, 0x0e, 0xa3, 0x3c, 0x80, 0x03, 0x9f, 0x35,
  0xb4, 0xf1, 0x4a, 0x04, 0xb5, 0x1f, 0x7b, 0xfd,
  0x78, 0x1b, 0xe4, 0xd1, 0x67, 0x31, 0x64, 0xba,
  0x8e, 0xb9, 0x91, 0xc2, 0xc4, 0xd7, 0x30, 0xbb,
  0xbe, 0x35, 0xf5, 0x92, 0xbd, 0xef, 0x52, 0x4a,
  0xf7, 0xe8, 0xda, 0xef, 0xd2, 0x6c, 0x66, 0xfc,
  0x02, 0xc4, 0x79, 0xaf, 0x89, 0xd6, 0x4d, 0x37,
  0x3f, 0x44, 0x27, 0x09, 0x43, 0x9d, 0xe6, 0x6c,
  0xeb, 0x95, 0x5f, 0x3e, 0xa3, 0x7d, 0x51, 0x59,
  0xf6, 0x13, 0x58, 0x09, 0xf8, 0x53, 0x34, 0xb5,
  0xcb, 0x18, 0x13, 0xad, 0xdc, 0x80, 0xcd, 0x05,
  0x60, 0x9f, 0x10, 0xac, 0x6a, 0x95, 0xad, 0x65,
  0x87, 0x2c, 0x90, 0x95, 0x25, 0xbd, 0xad, 0x32,
  0xbc, 0x72, 0x95, 0x92, 0x64, 0x29, 0x20, 0xf2,
  0x4c, 0x61, 0xdc, 0x5b, 0x3c, 0x3b, 0x79, 0x23,
  0xe5, 0x6b, 0x16, 0xa4, 0xd9, 0xd3, 0x73, 0xd8,
  0x72, 0x1f, 0x24, 0xa3, 0xfc, 0x0f, 0x1b, 0x31,
  0x31, 0xf5, 0x56, 0x15, 0x17, 0x28, 0x66, 0xbc,
  0xcc, 0x30, 0xf9, 0x50, 0x54, 0xc8, 0x24, 0xe7,
  0x33, 0xa5, 0xeb, 0x68, 0x17, 0xf7, 0xbc, 0x16,
  0x39, 0x9d, 0x48, 0xc6, 0x36, 0x1c, 0xc7, 0xe5
]

/-- RSA-617 Factoring Challenge (2048), big-endian bytes of the modulus. -/
def GOO_RSA617 : List Nat := c_array 256 [
  0xb3, 0xd5, 0x39, 0x5c, 0x45, 0xb5, 0x6d, 0x1c,
  0xfc, 0xf4, 0x11, 0xff, 0x0f, 0x6d, 0xa6, 0xb9,
  0xae, 0x45, 0xb1, 0xb0, 0x6b, 0xcf, 0xab, 0x61,
  0x88, 0x0a, 0x91, 0x1b, 0x22, 0xcf, 0xb2, 0x8c,
  0x3e, 0x01, 0x1e, 0x6a, 0x07, 0xc7, 0xec, 0x34,
  0x5f, 0x67, 0x48, 0x66, 0x87, 0xb9, 0x58, 0x1c,
  0x47, 0x5b, 0x9d, 0xa0, 0x8c, 0xec, 0xad, 0x9b,
  0xef, 0x00, 0x43, 0x15, 0xed, 0x3b, 0x01, 0x20,
  0xc8, 0x8e, 0x31, 0xc1, 0x34, 0xaa, 0x68, 0x48,
  0xa7, 0x0e, 0x87, 0x9c, 0x38, 0xaf, 0x31, 0x53,
  0x9b, 0xc0, 0x65, 0xd9, 0x14, 0x32, 0x72, 0x94,
  0x13, 0xde, 0xeb, 0x47, 0x5e, 0x03, 0x30, 0x49,
  0xcd, 0x28, 0x36, 0x48, 0xbf, 0xf4, 0x86, 0x76,
  0xbb, 0x2d, 0x33, 0x6e, 0x5a, 0xbf, 0xe0, 0xa5,
  0xa6, 0xb4, 0x6e, 0x89, 0x34, 0xd7, 0x11, 0xa6,
  0x85, 0xc4, 0xc4, 0x2b, 0x1b, 0x9a, 0xc4, 0x22,
  0xee, 0xa8, 0xb6, 0x4a, 0x81, 0xaf, 0xc4, 0xe2,
  0x9a, 0x72, 0x6f, 0x53, 0xca, 0x56, 0x13, 0xcb,
  0x44, 0xc8, 0xc6, 0x66, 0x0e, 0x36, 0xb8, 0x85,
  0x2e, 0xc1, 0xe0, 0x90, 0xdd, 0x62, 0x96, 0x45,
  0x7b, 0x15, 0xb1, 0x64, 0xd1, 0xf2, 0xf7, 0xa5,
  0x1c, 0x00, 0x37, 0x36, 0xcc, 0x5d, 0x89, 0x02,
  0x05, 0x9a, 0x7b, 0xcb, 0xea, 0xf1, 0xc5, 0xa0,
  0xf0, 0xea, 0xe6, 0x31, 0x9a, 0xd7, 0xa1, 0x44,
  0x5b, 0x1d, 0xf1, 0xfc, 0x79, 0xd1, 0xfa, 0x26,
  0x33, 0x02, 0x86, 0x98, 0x00, 0xce, 0x7b, 0xf8,
  0xb8, 0xae, 0x34, 0x0c, 0x01, 0x53, 0xa5, 0x14,
  0xde, 0xf6, 0x58, 0xf6, 0x19, 0x5f, 0x36, 0x61,
  0x64, 0x46, 0x69, 0xdf, 0x0b, 0x95, 0x14, 0xe6,
  0xe1, 0x34, 0x4d, 0xfa, 0x5b, 0x22, 0x10, 0x45,
  0x1a, 0xb5, 0xe9, 0x83, 0x87, 0x38, 0xbd, 0x15,
  0xed, 0x4a, 0x7a, 0xa7, 0x9e, 0x96, 0xb7, 0x65
]

/-! ## Record types -/

/-- Record `goo_combspec_s`: the parameters of a comb. -/
structure goo_combspec_t where
  points_per_add : Int
  adds_per_shift : Int
  shifts : Int
  bits_per_window : Int
  size : Int

/-- Record `goo_comb_s`: a comb; `items` is the table of group elements
(`mpz_t *`), `wins` the window decomposition table (`long **`). -/
structure goo_comb_t where
  points_per_add : Int
  adds_per_shift : Int
  shifts : Int
  bits_per_window : Int
  bits : Int
  points_per_subcomb : Int
  size : Int
  items : List Int
  wins : List (List Int)

/-- Record `goo_comb_item_s`: the comb of `g` and the comb of `h`. -/
structure goo_comb_item_t where
  g : goo_comb_t
  h : goo_comb_t

/-- Record `goo_prng_s`; the DRBG context type is declared in `drbg.h`. -/
structure goo_prng_t (goo_drbg_t : Type) where
  ctx : goo_drbg_t
  save : Int
  total : Nat
  tmp : Int

/-- Record `goo_sig_s`: the signature, eighteen big integers. -/
structure goo_sig_t where
  C2 : Int
  C3 : Int
  t : Int
  chal : Int
  ell : Int
  Aq : Int
  Bq : Int
  Cq : Int
  Dq : Int
  Eq : Int
  z_w : Int
  z_w2 : Int
  z_s1 : Int
  z_a : Int
  z_an : Int
  z_s1w : Int
  z_sa : Int
  z_s2 : Int

/-- Record `goo_group_s`: the group handle. -/
structure goo_group_t (goo_drbg_t goo_sha256_t : Type) where
  n : Int
  g : Int
  h : Int
  nh : Int
  bits : Nat
  size : Nat
  rand_bits : Nat
  prng : goo_prng_t goo_drbg_t
  sha : goo_sha256_t
  table_p1 : List Int
  table_n1 : List Int
  table_n2 : List Int
  table_p2 : List Int
  wnaf0 : List Int
  wnaf1 : List Int
  wnaf2 : List Int
  combs_len : Int
  combs : List goo_comb_item_t
  slab : List Nat

/-- The declared sizes of the arrays inside `goo_group_s`, and `combs_len`
as an index bound into `combs[2]`. -/
def goo_group_wf {D S : Type} (G : goo_group_t D S) : Prop :=
  G.table_p1.length = GOO_TABLEN ∧ G.table_n1.length = GOO_TABLEN ∧
  G.table_n2.length = GOO_TABLEN ∧ G.table_p2.length = GOO_TABLEN ∧
  G.wnaf0.length = GOO_MAX_RSA_BITS + 1 ∧ G.wnaf1.length = GOO_ELL_BITS + 1 ∧
  G.wnaf2.length = GOO_ELL_BITS + 1 ∧ G.combs.length = 2 ∧
  G.slab.length = GOO_MAX_RSA_BYTES ∧ 0 ≤ G.combs_len ∧ G.combs_len ≤ 2

instance {D S : Type} (G : goo_group_t D S) : Decidable (goo_group_wf G) := by
  unfold goo_group_wf
  infer_instance

/-- The table of a comb holds `size` group elements. -/
def goo_comb_wf (c : goo_comb_t) : Prop := (c.items.length : Int) = c.size

instance (c : goo_comb_t) : Decidable (goo_comb_wf c) := by
  unfold goo_comb_wf
  infer_instance

/-- A comb respects the cap `GOO_MAX_COMB_SIZE` on its number of points. -/
def goo_comb_capped (c : goo_comb_t) : Prop := c.size ≤ (GOO_MAX_COMB_SIZE : Int)

instance (c : goo_comb_t) : Decidable (goo_comb_capped c) := by
  unfold goo_comb_capped
  infer_instance

/-- The comb items in use, `combs[0 .. combs_len)`. -/
def goo_group_combs {D S : Type} (G : goo_group_t D S) : List goo_comb_item_t :=
  G.combs.take G.combs_len.toNat

/-- Group elements held by one comb item, the `g` comb and the `h` comb. -/
def goo_comb_item_points (it : goo_comb_item_t) : Nat :=
  it.g.items.length + it.h.items.length

/-- Group elements held by all comb tables of a handle. -/
def goo_group_comb_points {D S : Type} (G : goo_group_t D S) : Nat :=
  ((goo_group_combs G).map goo_comb_item_points).sum

/-- Bytes of element data of the comb tables, each group element counted at
its full width `GOO_MAX_RSA_BYTES`. -/
def goo_group_comb_bytes {D S : Type} (G : goo_group_t D S) : Nat :=
  goo_group_comb_points G * GOO_MAX_RSA_BYTES

/-- Every comb in use is well formed and respects the cap. -/
def goo_group_combs_capped {D S : Type} (G : goo_group_t D S) : Prop :=
  ∀ it ∈ goo_group_combs G,
    goo_comb_wf it.g ∧ goo_comb_capped it.g ∧ goo_comb_wf it.h ∧ goo_comb_capped it.h

instance {D S : Type} (G : goo_group_t D S) : Decidable (goo_group_combs_capped G) := by
  unfold goo_group_combs_capped
  infer_instance

/-! ## SHA-256 (FIPS 180-4) -/

/-- Modelled from the spec: the SHA-256 primitive (FIPS 180-4) that the
tags and checksums of `internal.h` refer to; the repository's own
`sha256.c` is not part of the sources at hand. This is the integer root used
for its constants: starting from `r`, the bits `i - 1, ..., 0` are set from
the top whenever the `k`-th power stays at most `n`; with `r = 0` and
`n < 2 ^ (k * i)` the result is the largest `x` with `x ^ k <= n`. -/
def iroot_bits (k n : Nat) : Nat → Nat → Nat
  | 0, r => r
  | i + 1, r => iroot_bits k n i (if (r + 2 ^ i) ^ k ≤ n then r + 2 ^ i else r)

/-- Modelled from the spec: the first thirty-two bits of the fractional part
of the `k`-th root of `p` (FIPS 180-4, 4.2.2 and 5.3.3), that is
`floor (2 ^ 32 * root k p)` modulo `2 ^ 32`. -/
def frac_root32 (k p : Nat) : Nat :=
  iroot_bits k (p * 2 ^ (32 * k)) 36 0 % 4294967296

/-- Modelled from the spec: the first sixty-four prime numbers. -/
def first_primes : List Nat := [
  2, 3, 5, 7, 11, 13, 17, 19, 23, 29, 31, 37, 41, 43, 47, 53,
  59, 61, 67, 71, 73, 79, 83, 89, 97, 101, 103, 107, 109, 113, 127, 131,
  137, 139, 149, 151, 157, 163, 167, 173, 179, 181, 191, 193, 197, 199, 211, 223,
  227, 229, 233, 239, 241, 251, 257, 263, 269, 271, 277, 281, 283, 293, 307, 311
]

/-- Modelled from the spec: primality by trial division, used to check the
table `first_primes`. -/
def trial_prime (n : Nat) : Bool :=
  decide (2 ≤ n) && (List.range n).all fun d => decide (d < 2) || decide (n % d ≠ 0)

/-- Modelled from the spec: the round constants `K_0 .. K_63` (FIPS 180-4,
4.2.2), the first thirty-two bits of the fractional parts of the cube roots
of the first sixty-four primes. -/
def sha256_K : List Nat := first_primes.map (frac_root32 3)

/-- Modelled from the spec: addition modulo `2^32` on 32-bit words. -/
def add32 (a b : Nat) : Nat := (a + b) % 4294967296

/-- Modelled from the spec: `ROTR^n(x)` on 32-bit words (FIPS 180-4, 3.2). -/
def rotr32 (x n : Nat) : Nat := ((x >>> n) ||| (x <<< (32 - n))) % 4294967296

/-- Modelled from the spec: `Ch(x, y, z)` (FIPS 180-4, 4.1.2). -/
def sha256_Ch (x y z : Nat) : Nat := (x &&& y) ^^^ ((x ^^^ 0xffffffff) &&& z)

/-- Modelled from the spec: `Maj(x, y, z)` (FIPS 180-4, 4.1.2). -/
def sha256_Maj (x y z : Nat) : Nat := (x &&& y) ^^^ (x &&& z) ^^^ (y &&& z)

/-- Modelled from the spec: the function written capital sigma 0 in FIPS 180-4, 4.1.2. -/
def sha256_Sigma0 (x : Nat) : Nat := rotr32 x 2 ^^^ rotr32 x 13 ^^^ rotr32 x 22

/-- Modelled from the spec: the function written capital sigma 1 in FIPS 180-4, 4.1.2. -/
def sha256_Sigma1 (x : Nat) : Nat := rotr32 x 6 ^^^ rotr32 x 11 ^^^ rotr32 x 25

/-- Modelled from the spec: the function written small sigma 0 in FIPS 180-4, 4.1.2. -/
def sha256_sigma0 (x : Nat) : Nat := rotr32 x 7 ^^^ rotr32 x 18 ^^^ (x >>> 3)

/-- Modelled from the spec: the function written small sigma 1 in FIPS 180-4, 4.1.2. -/
def sha256_sigma1 (x : Nat) : Nat := rotr32 x 17 ^^^ rotr32 x 19 ^^^ (x >>> 10)

/-- Modelled from the spec: the 64-bit big-endian encoding of the message
length in bits, the last eight bytes of the padding (FIPS 180-4, 5.1.1). -/
def sha256_lenBytes (bitlen : Nat) : List Nat :=
  [(bitlen >>> 56) % 256, (bitlen >>> 48) % 256, (bitlen >>> 40) % 256, (bitlen >>> 32) % 256,
   (bitlen >>> 24) % 256, (bitlen >>> 16) % 256, (bitlen >>> 8) % 256, bitlen % 256]

/-- Modelled from the spec: message padding (FIPS 180-4, 5.1.1): the byte
`0x80`, then the least number of zero bytes that brings the length to 56
modulo 64, then the bit length on eight bytes. -/
def sha256_pad (msg : List Nat) : List Nat :=
  msg ++ [0x80] ++ List.replicate ((119 - msg.length % 64) % 64) 0
    ++ sha256_lenBytes (8 * msg.length)

/-- Modelled from the spec: big-endian 32-bit words of a byte string (FIPS 180-4, 5.2.1). -/
def sha256_words : List Nat → List Nat
  | a :: b :: c :: d :: rest =>
      (a * 16777216 + b * 65536 + c * 256 + d) :: sha256_words rest
  | _ => []

/-- Modelled from the spec: message schedule (FIPS 180-4, 6.2.2 step 1). The
argument holds the words computed so far, latest first; each step appends
`W_t = sigma1(W_(t-2)) + W_(t-7) + sigma0(W_(t-15)) + W_(t-16)`. -/
def sha256_extend : Nat → List Nat → List Nat
  | 0, ws => ws
  | n + 1, ws =>
      sha256_extend n
        (add32 (add32 (add32 (sha256_sigma1 (ws.getD 1 0)) (ws.getD 6 0))
          (sha256_sigma0 (ws.getD 14 0))) (ws.getD 15 0) :: ws)

/-- Modelled from the spec: the 64 schedule words `W_0 .. W_63` of one block. -/
def sha256_schedule (block : List Nat) : List Nat :=
  (sha256_extend 48 (sha256_words block).reverse).reverse

/-- Modelled from the spec: the eight working variables `a .. h`. -/
structure sha256_vars where
  a : Nat
  b : Nat
  c : Nat
  d : Nat
  e : Nat
  f : Nat
  g : Nat
  h : Nat

/-- Modelled from the spec: the initial hash value `H(0)` (FIPS 180-4,
5.3.3), the first thirty-two bits of the fractional parts of the square
roots of the first eight primes. -/
def sha256_H0 : sha256_vars :=
  { a := frac_root32 2 2, b := frac_root32 2 3, c := frac_root32 2 5, d := frac_root32 2 7,
    e := frac_root32 2 11, f := frac_root32 2 13, g := frac_root32 2 17, h := frac_root32 2 19 }

/-- Modelled from the spec: one round of the compression function
(FIPS 180-4, 6.2.2 step 3) with round constant `k` and schedule word `w`. -/
def sha256_round (v : sha256_vars) (kw : Nat × Nat) : sha256_vars :=
  let t1 := add32 (add32 (add32 (add32 v.h (sha256_Sigma1 v.e)) (sha256_Ch v.e v.f v.g)) kw.1) kw.2
  let t2 := add32 (sha256_Sigma0 v.a) (sha256_Maj v.a v.b v.c)
  { a := add32 t1 t2, b := v.a, c := v.b, d := v.c,
    e := add32 v.d t1, f := v.e, g := v.f, h := v.g }

/-- Modelled from the spec: processing of one 64-byte block (FIPS 180-4,
6.2.2): run the 64 rounds from the current hash value and add the result
to it word by word. -/
def sha256_compress (hv : sha256_vars) (block : List Nat) : sha256_vars :=
  let v := List.foldl sha256_round hv (List.zip sha256_K (sha256_schedule block))
  { a := add32 hv.a v.a, b := add32 hv.b v.b, c := add32 hv.c v.c, d := add32 hv.d v.d,
    e := add32 hv.e v.e, f := add32 hv.f v.f, g := add32 hv.g v.g, h := add32 hv.h v.h }

/-- Modelled from the spec: the blocks of a padded message, 64 bytes each. -/
def sha256_blocks : Nat → List Nat → List (List Nat)
  | 0, _ => []
  | n + 1, bs => bs.take 64 :: sha256_blocks n (bs.drop 64)

/-- Modelled from the spec: big-endian bytes of a 32-bit word. -/
def sha256_wordBytes (w : Nat) : List Nat :=
  [(w >>> 24) % 256, (w >>> 16) % 256, (w >>> 8) % 256, w % 256]

/-- Modelled from the spec: SHA-256 of a byte string (FIPS 180-4, 6.2): pad,
split into blocks, fold the compression function from `H(0)`, and write the
final hash value as 32 big-endian bytes. -/
def SHA256 (msg : List Nat) : List Nat :=
  let p := sha256_pad msg
  let v := List.foldl sha256_compress sha256_H0 (sha256_blocks (p.length / 64) p)
  sha256_wordBytes v.a ++ sha256_wordBytes v.b ++ sha256_wordBytes v.c ++ sha256_wordBytes v.d
    ++ sha256_wordBytes v.e ++ sha256_wordBytes v.f ++ sha256_wordBytes v.g ++ sha256_wordBytes v.h

/-- The bytes of an ASCII string, as the C compiler stores a string literal
(without the terminating zero). -/
def ascii (s : String) : List Nat := s.toList.map Char.toNat

/-! ## Signature layout -/

/-- The fields of `goo_sig_s`, in declaration order. -/
def goo_sig_fields (s : goo_sig_t) : List Int :=
  [s.C2, s.C3, s.t, s.chal, s.ell, s.Aq, s.Bq, s.Cq, s.Dq, s.Eq,
   s.z_w, s.z_w2, s.z_s1, s.z_a, s.z_an, s.z_s1w, s.z_sa, s.z_s2]

/-- The signature as the specification writes it, the 18-tuple
`(C2, C3, t, chal, ell, Aq, Bq, Cq, Dq, Eq, z_w, z_w2, z_s1, z_a, z_an,
z_s1w, z_sa, z_s2)`. -/
abbrev spec_sig_tuple : Type :=
  Int × Int × Int × Int × Int × Int × Int × Int × Int × Int ×
  Int × Int × Int × Int × Int × Int × Int × Int

/-- The record `goo_sig_s` read as the tuple of the specification. -/
def goo_sig_to_tuple (s : goo_sig_t) : spec_sig_tuple :=
  (s.C2, s.C3, s.t, s.chal, s.ell, s.Aq, s.Bq, s.Cq, s.Dq, s.Eq,
   s.z_w, s.z_w2, s.z_s1, s.z_a, s.z_an, s.z_s1w, s.z_sa, s.z_s2)

/-- The tuple of the specification stored into the record `goo_sig_s`. -/
def goo_sig_of_tuple : spec_sig_tuple → goo_sig_t
  | (C2, C3, t, chal, ell, Aq, Bq, Cq, Dq, Eq,
     z_w, z_w2, z_s1, z_a, z_an, z_s1w, z_sa, z_s2) =>
    { C2 := C2, C3 := C3, t := t, chal := chal, ell := ell,
      Aq := Aq, Bq := Bq, Cq := Cq, Dq := Dq, Eq := Eq,
      z_w := z_w, z_w2 := z_w2, z_s1 := z_s1, z_a := z_a, z_an := z_an,
      z_s1w := z_s1w, z_sa := z_sa, z_s2 := z_s2 }

/-- The components of the tuple of the specification, in the order listed. -/
def spec_sig_components : spec_sig_tuple → List Int
  | (C2, C3, t, chal, ell, Aq, Bq, Cq, Dq, Eq,
     z_w, z_w2, z_s1, z_a, z_an, z_s1w, z_sa, z_s2) =>
    [C2, C3, t, chal, ell, Aq, Bq, Cq, Dq, Eq,
     z_w, z_w2, z_s1, z_a, z_an, z_s1w, z_sa, z_s2]

/-- Modelled from the spec: the fixed width in bytes of each field of the
wire encoding, in field order (the serialisation code is not part of the
sources at hand): `C2, C3` on `MAX_RSA_BYTES`, `t` on `2 * MAX_RSA_BYTES`,
`chal` on `CHAL_BYTES`, `ell` on `ELL_BYTES`, `Aq .. Eq` on `MAX_RSA_BYTES`
each, every `z_*` on `MAX_RSA_BYTES + ELL_BYTES`. -/
def goo_sig_widths : List Nat :=
  [GOO_MAX_RSA_BYTES, GOO_MAX_RSA_BYTES, 2 * GOO_MAX_RSA_BYTES,
   GOO_CHAL_BYTES, GOO_ELL_BYTES,
   GOO_MAX_RSA_BYTES, GOO_MAX_RSA_BYTES, GOO_MAX_RSA_BYTES, GOO_MAX_RSA_BYTES,
   GOO_MAX_RSA_BYTES,
   GOO_MAX_RSA_BYTES + GOO_ELL_BYTES, GOO_MAX_RSA_BYTES + GOO_ELL_BYTES,
   GOO_MAX_RSA_BYTES + GOO_ELL_BYTES, GOO_MAX_RSA_BYTES + GOO_ELL_BYTES,
   GOO_MAX_RSA_BYTES + GOO_ELL_BYTES, GOO_MAX_RSA_BYTES + GOO_ELL_BYTES,
   GOO_MAX_RSA_BYTES + GOO_ELL_BYTES, GOO_MAX_RSA_BYTES + GOO_ELL_BYTES]

/-- Modelled from the spec: the `len` big-endian bytes of a natural number
below `256 ^ len`, most significant byte first. -/
def be_bytes (x : Nat) : Nat → List Nat
  | 0 => []
  | len + 1 => (x / 256 ^ len) % 256 :: be_bytes x len

/-- Modelled from the spec: `export(int, bytes, len)`, the unsigned
big-endian fixed-width encoding of a big integer (the big-integer layer is
not part of the sources at hand). The encoding exists for the integers the
width can hold, `0 <= x < 256 ^ len`. -/
def goo_export (x : Int) (len : Nat) : Option (List Nat) :=
  if 0 ≤ x ∧ x < 256 ^ len then some (be_bytes x.toNat len) else none

/-- Modelled from the spec: the encodings of a list of fields at the given
widths, concatenated in order. -/
def goo_export_all : List Int → List Nat → Option (List Nat)
  | x :: xs, w :: ws =>
      match goo_export x w, goo_export_all xs ws with
      | some b, some bs => some (b ++ bs)
      | _, _ => none
  | [], [] => some []
  | _, _ => none

/-- Modelled from the spec: the wire encoding of a signature, the
concatenation of its fields in order, each at its fixed width. -/
def goo_sig_encode (s : goo_sig_t) : Option (List Nat) :=
  goo_export_all (goo_sig_fields s) goo_sig_widths

/-- Every field of the signature is within the range of its wire width. -/
def goo_sig_in_range (s : goo_sig_t) : Prop :=
  List.Forall₂ (fun x w => 0 ≤ x ∧ x < (256 : Int) ^ w) (goo_sig_fields s) goo_sig_widths

instance (s : goo_sig_t) : Decidable (goo_sig_in_range s) := by
  unfold goo_sig_in_range
  infer_instance

/-! ## Decimal digits and hexadecimal text -/

/-- Sum of the decimal digits of `n`, least significant first, reading at
most `fuel` digits. -/
def dec_digit_sum : Nat → Nat → Nat
  | 0, _ => 0
  | fuel + 1, n => n % 10 + dec_digit_sum fuel (n / 10)

/-- Lower-case hexadecimal text of a byte string, two digits per byte, as
the checksums are written in the header. -/
def hex_text (bs : List Nat) : String :=
  String.mk (bs.flatMap fun b => [Nat.digitChar (b / 16), Nat.digitChar (b % 16)])

/-- Documented above `GOO_AOL1`: `SHA-256: 7bd0...1140`. -/
def GOO_AOL1_SHA256 : String :=
  "7bd082427ff18b35c8e2cdb2b848d9c139877a273663d1eeea1d2a3d72b01140"

/-- Documented above `GOO_AOL2`: `SHA-256: 1c25...45ba`. -/
def GOO_AOL2_SHA256 : String :=
  "1c25b6b4a8e3b684dc828c0922b2359399c36b93f3ebaa6b71a1e412555545ba"

/-- Documented above `GOO_RSA2048`: `SHA-256: 6ae9...a9ce`. -/
def GOO_RSA2048_SHA256 : String :=
  "6ae9d033c1d76c4f535b5ad5c0073933a0b375b4120a75fbb66be814eab1a9ce"

/-- Documented above `GOO_RSA617`: `SHA-256: 8a09...d448`. -/
def GOO_RSA617_SHA256 : String :=
  "8a090bf2cdbf9fac321b2ffb48b75d4d196118fc27d7430dca10c1d06085d448"

/-- Documented above `GOO_AOL1`: `Digit Sum: 2776`. -/
def GOO_AOL1_DIGIT_SUM : Nat := 2776

/-- Documented above `GOO_AOL2`: `Digit Sum: 5522`. -/
def GOO_AOL2_DIGIT_SUM : Nat := 5522

/-- Documented above `GOO_RSA2048`: `Digit Sum: 2738`. -/
def GOO_RSA2048_DIGIT_SUM : Nat := 2738

/-- Documented above `GOO_RSA617`: `Digit Sum: 2680`. -/
def GOO_RSA617_DIGIT_SUM : Nat := 2680

/-- The eight domain-separation tags, in the order of the header. -/
def goo_tags : List (List Nat) :=
  [GOO_HASH_PREFIX, GOO_PRNG_EXPAND, GOO_PRNG_DERIVE, GOO_PRNG_PRIMALITY,
   GOO_PRNG_SIGN, GOO_PRNG_ENCRYPT, GOO_PRNG_DECRYPT, GOO_PRNG_LOCAL]

/-- The ASCII strings the header documents for the tags, in the same order. -/
def goo_tag_strings : List String :=
  ["Goo Signature", "Goo Expand", "Goo Derive", "Goo Primality",
   "Goo Sign", "Goo Encrypt", "Goo Decrypt", "Goo Local"]

/-- The four shipped moduli, in the order of the header. -/
def goo_moduli : List (List Nat) := [GOO_AOL1, GOO_AOL2, GOO_RSA2048, GOO_RSA617]

/-! ## Concrete values -/

/-- A signature whose fields all lie within their wire widths. -/
def sample_sig : goo_sig_t :=
  { C2 := 5, C3 := 7, t := 35, chal := 2 ^ 128 - 1, ell := 2 ^ 135 + 1,
    Aq := 1, Bq := 2, Cq := 3, Dq := 4, Eq := 0,
    z_w := 2 ^ 4232 - 1, z_w2 := 11, z_s1 := 12, z_a := 13, z_an := 14,
    z_s1w := 15, z_sa := 16, z_s2 := 17 }

/-- A comb filled to the cap: 8 points per add, 1 add per shift, 64 shifts
of 32 bits, 512 group elements. -/
def full_comb : goo_comb_t :=
  { points_per_add := 8, adds_per_shift := 1, shifts := 64, bits_per_window := 32,
    bits := 2048, points_per_subcomb := 512, size := 512,
    items := List.replicate 512 1,
    wins := List.replicate 64 [0] }

/-- A group handle over `GOO_RSA2048` with both comb items in use, each of
its four combs filled to the cap. -/
def full_group : goo_group_t Unit Unit :=
  { n := (be_uint GOO_RSA2048 : Int), g := 2, h := 3,
    nh := (be_uint GOO_RSA2048 : Int) / 2,
    bits := 2048, size := 256, rand_bits := 2047,
    prng := { ctx := (), save := 0, total := 0, tmp := 0 },
    sha := (),
    table_p1 := List.replicate 16 1, table_n1 := List.replicate 16 1,
    table_n2 := List.replicate 16 1, table_p2 := List.replicate 16 1,
    wnaf0 := List.replicate 4097 0, wnaf1 := List.replicate 137 0,
    wnaf2 := List.replicate 137 0,
    combs_len := 2,
    combs := [{ g := full_comb, h := full_comb }, { g := full_comb, h := full_comb }],
    slab := List.replicate 512 0 }

/-! ## Helper lemmas -/

/-- The bit length of a natural number between `2 ^ k` and `2 ^ (k + 1)`. -/
theorem size_eq_of_bounds (n k : Nat) (hlo : 2 ^ k ≤ n) (hhi : n < 2 ^ (k + 1)) :
    Nat.size n = k + 1 := by
  apply le_antisymm
  · exact Nat.size_le.mpr hhi
  · exact Nat.lt_size.mpr hlo

/-- The fuelled digit sum agrees with the sum of `Nat.digits 10` as soon as
the fuel covers the number of digits. -/
theorem dec_digit_sum_eq (fuel n : Nat) (h : n < 10 ^ fuel) :
    dec_digit_sum fuel n = (Nat.digits 10 n).sum := by
  induction fuel generalizing n with
  | zero =>
      have hn : n = 0 := by simpa using h
      subst hn
      simp [dec_digit_sum]
  | succ k ih =>
      rcases Nat.eq_zero_or_pos n with hn | hn
      · subst hn
        have h0 : dec_digit_sum k 0 = 0 := by
          rw [ih 0 (by positivity)]; simp
        simp [dec_digit_sum, h0]
      · have hdiv : n / 10 < 10 ^ k := by
          apply Nat.div_lt_of_lt_mul
          calc n < 10 ^ (k + 1) := h
            _ = 10 * 10 ^ k := by ring
        rw [dec_digit_sum, ih (n / 10) hdiv]
        conv_rhs => rw [Nat.digits_def' (by norm_num : 1 < 10) hn]
        simp

/-- The table of primes holds exactly the primes below 312, in order. -/
theorem first_primes_eq :
    first_primes = (List.range 312).filter trial_prime ∧ first_primes.length = 64 := by
  decide!

/-- The integer roots behind the constants are exact: for every prime `p` of
the table, `x = iroot_bits 3 (p * 2 ^ 96) 36 0` is the floor of the cube root,
`x ^ 3 <= p * 2 ^ 96 < (x + 1) ^ 3`, and likewise for the square roots of the
first eight primes. -/
theorem sha256_roots_exact :
    (first_primes.all fun p =>
      decide (iroot_bits 3 (p * 2 ^ 96) 36 0 ^ 3 ≤ p * 2 ^ 96) &&
      decide (p * 2 ^ 96 < (iroot_bits 3 (p * 2 ^ 96) 36 0 + 1) ^ 3)) = true ∧
    ((first_primes.take 8).all fun p =>
      decide (iroot_bits 2 (p * 2 ^ 64) 36 0 ^ 2 ≤ p * 2 ^ 64) &&
      decide (p * 2 ^ 64 < (iroot_bits 2 (p * 2 ^ 64) 36 0 + 1) ^ 2)) = true ∧
    first_primes.take 8 = [2, 3, 5, 7, 11, 13, 17, 19] := by
  decide!

/-- The derived constants start and end as printed in FIPS 180-4. -/
theorem sha256_constants_check :
    sha256_K.take 4 = [0x428a2f98, 0x71374491, 0xb5c0fbcf, 0xe9b5dba5] ∧
    sha256_K.drop 62 = [0xbef9a3f7, 0xc67178f2] ∧
    sha256_H0.a = 0x6a09e667 ∧ sha256_H0.b = 0xbb67ae85 ∧
    sha256_H0.g = 0x1f83d9ab ∧ sha256_H0.h = 0x5be0cd19 := by
  decide!

/-- FIPS 180-4 test vector: the digest of the three bytes of "abc". -/
theorem sha256_abc :
    hex_text (SHA256 (ascii "abc")) =
      "ba7816bf8f01cfea414140de5dae2223b00361a396177a9cb410ff61f20015ad" := by
  decide!

/-- FIPS 180-4 test vector: the digest of the empty message. -/
theorem sha256_empty :
    hex_text (SHA256 []) =
      "e3b0c44298fc1c149afbf4c8996fb92427ae41e4649b934ca495991b7852b855" := by
  decide!

/-- FIPS 180-4 test vector: a 56-byte message, which takes two blocks. -/
theorem sha256_two_blocks :
    hex_text (SHA256 (ascii "abcdbcdecdefdefgefghfghighijhijkijkljklmklmnlmnomnopnopq")) =
      "248d6a61d20638b8e5c026930c3e6039a33ce45964ff2167f6ecedd419db06c1" := by
  decide!

/-! ## Domain-separation tags -/

/-- C1: each of the eight domain-separation tags equals, byte for byte, the
SHA-256 digest (FIPS 180-4) of the ASCII string the header documents for it:
"Goo Signature", "Goo Expand", "Goo Derive", "Goo Primality", "Goo Sign",
"Goo Encrypt", "Goo Decrypt" and "Goo Local". -/
theorem tags_are_sha256 :
    GOO_HASH_PREFIX = SHA256 (ascii "Goo Signature") ∧
    GOO_PRNG_EXPAND = SHA256 (ascii "Goo Expand") ∧
    GOO_PRNG_DERIVE = SHA256 (ascii "Goo Derive") ∧
    GOO_PRNG_PRIMALITY = SHA256 (ascii "Goo Primality") ∧
    GOO_PRNG_SIGN = SHA256 (ascii "Goo Sign") ∧
    GOO_PRNG_ENCRYPT = SHA256 (ascii "Goo Encrypt") ∧
    GOO_PRNG_DECRYPT = SHA256 (ascii "Goo Decrypt") ∧
    GOO_PRNG_LOCAL = SHA256 (ascii "Goo Local") := by
  decide!

/-! ## Shipped moduli -/

/-- C2: each shipped modulus is stored at its fixed width, every entry a
byte, and read as an unsigned big-endian integer it has exactly the stated
bit length: 256 bytes and 2048 bits for GOO_AOL1, GOO_RSA2048 and
GOO_RSA617, 512 bytes and 4096 bits for GOO_AOL2; so every bit length lies
in [GOO_MIN_RSA_BITS, GOO_MAX_RSA_BITS] = [1024, 4096]. -/
theorem moduli_width_and_bitlen :
    (GOO_AOL1.length = 256 ∧ all_bytes GOO_AOL1 = true ∧
      Nat.size (be_uint GOO_AOL1) = 2048) ∧
    (GOO_AOL2.length = 512 ∧ all_bytes GOO_AOL2 = true ∧
      Nat.size (be_uint GOO_AOL2) = 4096) ∧
    (GOO_RSA2048.length = 256 ∧ all_bytes GOO_RSA2048 = true ∧
      Nat.size (be_uint GOO_RSA2048) = 2048) ∧
    (GOO_RSA617.length = 256 ∧ all_bytes GOO_RSA617 = true ∧
      Nat.size (be_uint GOO_RSA617) = 2048) ∧
    GOO_MIN_RSA_BITS = 1024 ∧ GOO_MAX_RSA_BITS = 4096 ∧
    (GOO_MIN_RSA_BITS ≤ Nat.size (be_uint GOO_AOL1) ∧
      Nat.size (be_uint GOO_AOL1) ≤ GOO_MAX_RSA_BITS) ∧
    (GOO_MIN_RSA_BITS ≤ Nat.size (be_uint GOO_AOL2) ∧
      Nat.size (be_uint GOO_AOL2) ≤ GOO_MAX_RSA_BITS) ∧
    (GOO_MIN_RSA_BITS ≤ Nat.size (be_uint GOO_RSA2048) ∧
      Nat.size (be_uint GOO_RSA2048) ≤ GOO_MAX_RSA_BITS) ∧
    (GOO_MIN_RSA_BITS ≤ Nat.size (be_uint GOO_RSA617) ∧
      Nat.size (be_uint GOO_RSA617) ≤ GOO_MAX_RSA_BITS) := by
  have h1 : Nat.size (be_uint GOO_AOL1) = 2048 :=
    size_eq_of_bounds _ 2047 (by decide!) (by decide!)
  have h2 : Nat.size (be_uint GOO_AOL2) = 4096 :=
    size_eq_of_bounds _ 4095 (by decide!) (by decide!)
  have h3 : Nat.size (be_uint GOO_RSA2048) = 2048 :=
    size_eq_of_bounds _ 2047 (by decide!) (by decide!)
  have h4 : Nat.size (be_uint GOO_RSA617) = 2048 :=
    size_eq_of_bounds _ 2047 (by decide!) (by decide!)
  rw [h1, h2, h3, h4]
  decide!

/-- C3: for each of the four shipped moduli, the SHA-256 digest of its
stored byte array, written in hexadecimal, is the SHA-256 checksum documented
above it in the header. -/
theorem moduli_sha256_checksums :
    hex_text (SHA256 GOO_AOL1) = GOO_AOL1_SHA256 ∧
    hex_text (SHA256 GOO_AOL2) = GOO_AOL2_SHA256 ∧
    hex_text (SHA256 GOO_RSA2048) = GOO_RSA2048_SHA256 ∧
    hex_text (SHA256 GOO_RSA617) = GOO_RSA617_SHA256 := by
  decide!

/-- C4: with g = GOO_DEFAULT_G = 2 and h = GOO_DEFAULT_H = 3, every shipped
modulus n (read big-endian) satisfies 1 < g < n, 1 < h < n, gcd(g, n) = 1
and gcd(h, n) = 1. -/
theorem default_generators_invariants :
    GOO_DEFAULT_G = 2 ∧ GOO_DEFAULT_H = 3 ∧
    (1 < GOO_DEFAULT_G ∧ GOO_DEFAULT_G < be_uint GOO_AOL1 ∧
      1 < GOO_DEFAULT_H ∧ GOO_DEFAULT_H < be_uint GOO_AOL1 ∧
      Nat.gcd GOO_DEFAULT_G (be_uint GOO_AOL1) = 1 ∧
      Nat.gcd GOO_DEFAULT_H (be_uint GOO_AOL1) = 1) ∧
    (1 < GOO_DEFAULT_G ∧ GOO_DEFAULT_G < be_uint GOO_AOL2 ∧
      1 < GOO_DEFAULT_H ∧ GOO_DEFAULT_H < be_uint GOO_AOL2 ∧
      Nat.gcd GOO_DEFAULT_G (be_uint GOO_AOL2) = 1 ∧
      Nat.gcd GOO_DEFAULT_H (be_uint GOO_AOL2) = 1) ∧
    (1 < GOO_DEFAULT_G ∧ GOO_DEFAULT_G < be_uint GOO_RSA2048 ∧
      1 < GOO_DEFAULT_H ∧ GOO_DEFAULT_H < be_uint GOO_RSA2048 ∧
      Nat.gcd GOO_DEFAULT_G (be_uint GOO_RSA2048) = 1 ∧
      Nat.gcd GOO_DEFAULT_H (be_uint GOO_RSA2048) = 1) ∧
    (1 < GOO_DEFAULT_G ∧ GOO_DEFAULT_G < be_uint GOO_RSA617 ∧
      1 < GOO_DEFAULT_H ∧ GOO_DEFAULT_H < be_uint GOO_RSA617 ∧
      Nat.gcd GOO_DEFAULT_G (be_uint GOO_RSA617) = 1 ∧
      Nat.gcd GOO_DEFAULT_H (be_uint GOO_RSA617) = 1) := by
  decide!

/-! ## Derived constants -/

/-- The byte-count expression of the header is the ceiling of `bits / 8`. -/
theorem bits_to_bytes_eq_ceil (bits : Nat) :
    bits_to_bytes bits = ⌈(bits : ℚ) / 8⌉₊ := by
  unfold bits_to_bytes
  apply le_antisymm
  · have h := Nat.le_ceil ((bits : ℚ) / 8)
    rw [div_le_iff₀ (by norm_num)] at h
    have h' : bits ≤ ⌈(bits : ℚ) / 8⌉₊ * 8 := by exact_mod_cast h
    omega
  · rw [Nat.ceil_le, div_le_iff₀ (by norm_num)]
    have h' : bits ≤ (bits + 7) / 8 * 8 := by omega
    exact_mod_cast h'

/-- C5: the derived constants of the header evaluate to the values the spec
fixes, GOO_TABLEN = 2^(GOO_WINDOW_SIZE - 2) = 16, GOO_CHAL_BYTES = 16,
GOO_ELL_BYTES = 17 and GOO_MAX_RSA_BYTES = 512; each GOO_*_BYTES macro is the
byte-count formula (bits + 7) / 8 at its bit count, and that formula, with
integer division, equals ceil(bits / 8) for every non-negative bit count. -/
theorem derived_constants :
    GOO_TABLEN = 2 ^ (GOO_WINDOW_SIZE - 2) ∧ GOO_TABLEN = 16 ∧
    GOO_CHAL_BYTES = 16 ∧ GOO_ELL_BYTES = 17 ∧ GOO_MAX_RSA_BYTES = 512 ∧
    GOO_MIN_RSA_BYTES = bits_to_bytes GOO_MIN_RSA_BITS ∧
    GOO_MAX_RSA_BYTES = bits_to_bytes GOO_MAX_RSA_BITS ∧
    GOO_EXP_BYTES = bits_to_bytes GOO_EXP_BITS ∧
    GOO_CHAL_BYTES = bits_to_bytes GOO_CHAL_BITS ∧
    GOO_ELL_BYTES = bits_to_bytes GOO_ELL_BITS ∧
    (∀ bits : Nat, bits_to_bytes bits = (bits + 7) / 8) ∧
    (∀ bits : Nat, bits_to_bytes bits = ⌈(bits : ℚ) / 8⌉₊) := by
  refine ⟨by decide, by decide, by decide, by decide, by decide, rfl, rfl, rfl, rfl, rfl,
    fun _ => rfl, bits_to_bytes_eq_ceil⟩

/-! ## Widths of the signature fields -/

/-- C6: every response fits its wire width: for 0 <= chal < 2^GOO_CHAL_BITS,
0 <= r < 2^GOO_ELL_BITS and a witness value on GOO_MAX_RSA_BYTES bytes,
0 <= witness < 2^(8*GOO_MAX_RSA_BYTES), the integer z = r + chal * witness
is non-negative and fits in GOO_MAX_RSA_BYTES + GOO_ELL_BYTES bytes, that is
z < 2^(8*(512+17)). -/
theorem response_fits_wire_width (chal r witness : Int)
    (hc0 : 0 ≤ chal) (hc : chal < 2 ^ GOO_CHAL_BITS)
    (hr0 : 0 ≤ r) (hr : r < 2 ^ GOO_ELL_BITS)
    (hw0 : 0 ≤ witness) (hw : witness < 2 ^ (8 * GOO_MAX_RSA_BYTES)) :
    0 ≤ r + chal * witness ∧
    r + chal * witness < 2 ^ (8 * (GOO_MAX_RSA_BYTES + GOO_ELL_BYTES)) ∧
    8 * (GOO_MAX_RSA_BYTES + GOO_ELL_BYTES) = 8 * (512 + 17) := by
  have e1 : GOO_CHAL_BITS = 128 := rfl
  have e2 : GOO_ELL_BITS = 136 := rfl
  have e3 : 8 * GOO_MAX_RSA_BYTES = 4096 := by decide
  have e4 : 8 * (GOO_MAX_RSA_BYTES + GOO_ELL_BYTES) = 4232 := by decide
  rw [e1] at hc
  rw [e2] at hr
  rw [e3] at hw
  rw [e4]
  refine ⟨add_nonneg hr0 (mul_nonneg hc0 hw0), ?_, by norm_num⟩
  have hA : (0 : Int) < 2 ^ 4224 := by positivity
  have hprod : chal * witness ≤ 2 ^ 128 * 2 ^ 4096 :=
    mul_le_mul hc.le hw.le hw0 (by positivity)
  have hsplit : (2 : Int) ^ 128 * 2 ^ 4096 = 2 ^ 4224 := by rw [← pow_add]
  have hr' : r < 2 ^ 4224 :=
    lt_of_lt_of_le hr (pow_le_pow_right₀ (by norm_num) (by norm_num))
  have htop : (2 : Int) ^ 4232 = 2 ^ 4224 * 2 ^ 8 := by rw [← pow_add]
  rw [hsplit] at hprod
  rw [htop]
  have h256 : (2 : Int) ^ 8 = 256 := by norm_num
  rw [h256]
  linarith

/-- C6 at a concrete input: the largest challenge, remainder and witness
value allowed by the bounds. -/
theorem response_fits_wire_width_witness :
    (0 : Int) ≤ (2 ^ 136 - 1) + (2 ^ 128 - 1) * (2 ^ 4096 - 1) ∧
    ((2 ^ 136 - 1) + (2 ^ 128 - 1) * (2 ^ 4096 - 1) : Int) <
      2 ^ (8 * (GOO_MAX_RSA_BYTES + GOO_ELL_BYTES)) :=
  have h := response_fits_wire_width (2 ^ 128 - 1) (2 ^ 136 - 1) (2 ^ 4096 - 1)
    (by norm_num) (by norm_num [GOO_CHAL_BITS]) (by norm_num) (by norm_num [GOO_ELL_BITS])
    (by norm_num) (by norm_num [GOO_MAX_RSA_BYTES, GOO_MAX_RSA_BITS])
  ⟨h.1, h.2.1⟩

/-! ## Signature layout -/

/-- The big-endian encoding on `len` bytes has `len` bytes. -/
theorem be_bytes_length (x len : Nat) : (be_bytes x len).length = len := by
  induction len with
  | zero => rfl
  | succ k ih => simp [be_bytes, ih]

/-- An encoding produced by `goo_export` has the requested width. -/
theorem goo_export_length (x : Int) (len : Nat) (bs : List Nat)
    (h : goo_export x len = some bs) : bs.length = len := by
  unfold goo_export at h
  split at h
  · simp only [Option.some.injEq] at h
    rw [← h, be_bytes_length]
  · simp at h

/-- The concatenated encodings have the sum of the widths as length. -/
theorem goo_export_all_length (xs : List Int) (ws : List Nat) (bs : List Nat)
    (h : goo_export_all xs ws = some bs) : bs.length = ws.sum := by
  induction xs generalizing ws bs with
  | nil =>
      cases ws with
      | nil => simp [goo_export_all] at h; simp [h]
      | cons w ws => simp [goo_export_all] at h
  | cons x xs ih =>
      cases ws with
      | nil => simp [goo_export_all] at h
      | cons w ws =>
          rw [goo_export_all] at h
          cases hx : goo_export x w with
          | none => simp [hx] at h
          | some b =>
              cases hr : goo_export_all xs ws with
              | none => simp [hx, hr] at h
              | some rest =>
                  simp only [hx, hr, Option.some.injEq] at h
                  rw [← h, List.length_append, goo_export_length x w b hx, ih ws rest hr,
                    List.sum_cons]

/-- Fields within the range of their widths have a concatenated encoding. -/
theorem goo_export_all_isSome (xs : List Int) (ws : List Nat)
    (h : List.Forall₂ (fun x w => 0 ≤ x ∧ x < (256 : Int) ^ w) xs ws) :
    (goo_export_all xs ws).isSome = true := by
  induction h with
  | nil => simp [goo_export_all]
  | @cons x w xs ws hxw _ ih =>
      have hx : goo_export x w = some (be_bytes x.toNat w) := by
        unfold goo_export
        rw [if_pos hxw]
      obtain ⟨rest, hrest⟩ := Option.isSome_iff_exists.mp ih
      simp [goo_export_all, hx, hrest]

/-- C7: the signature is the 18-tuple whose fields, in order, are exactly
those of goo_sig_t (C2, C3, t, chal, ell, Aq, Bq, Cq, Dq, Eq, z_w, z_w2,
z_s1, z_a, z_an, z_s1w, z_sa, z_s2): the record and the tuple of the spec
correspond one to one, component by component in the same order; and the
wire encoding with the listed fixed widths has the same total length for
every signature, 2*MAX_RSA_BYTES + 2*MAX_RSA_BYTES + CHAL_BYTES + ELL_BYTES
+ 5*MAX_RSA_BYTES + 8*(MAX_RSA_BYTES + ELL_BYTES) = 17*512 + 16 + 9*17 = 8873
bytes; every signature whose fields are in range has such an encoding. -/
theorem sig_tuple_and_wire_length (s : goo_sig_t) (bytes : List Nat)
    (h : goo_sig_encode s = some bytes) :
    goo_sig_of_tuple (goo_sig_to_tuple s) = s ∧
    (∀ t : spec_sig_tuple, goo_sig_to_tuple (goo_sig_of_tuple t) = t) ∧
    spec_sig_components (goo_sig_to_tuple s) = goo_sig_fields s ∧
    (goo_sig_fields s).length = 18 ∧ goo_sig_widths.length = 18 ∧
    goo_sig_widths.sum =
      2 * GOO_MAX_RSA_BYTES + 2 * GOO_MAX_RSA_BYTES + GOO_CHAL_BYTES + GOO_ELL_BYTES
        + 5 * GOO_MAX_RSA_BYTES + 8 * (GOO_MAX_RSA_BYTES + GOO_ELL_BYTES) ∧
    goo_sig_widths.sum = 17 * 512 + 16 + 9 * 17 ∧
    bytes.length = 8873 ∧
    (∀ s' : goo_sig_t, goo_sig_in_range s' → (goo_sig_encode s').isSome = true) := by
  refine ⟨rfl, fun _ => rfl, rfl, rfl, rfl, by decide, by decide, ?_, ?_⟩
  · rw [goo_export_all_length _ _ bytes h]
    decide
  · intro s' hs'
    exact goo_export_all_isSome _ _ hs'

/-- C7 at a concrete signature: the fields of `sample_sig` are within their
widths, it has a wire encoding, and the encoding is 8873 bytes long. -/
theorem sig_tuple_and_wire_length_witness :
    goo_sig_in_range sample_sig ∧
    goo_sig_encode sample_sig = some ((goo_sig_encode sample_sig).getD []) ∧
    ((goo_sig_encode sample_sig).getD []).length = 8873 :=
  have hr : goo_sig_in_range sample_sig := by decide!
  have h : goo_sig_encode sample_sig = some ((goo_sig_encode sample_sig).getD []) := by
    have hs : (goo_sig_encode sample_sig).isSome = true := by decide!
    obtain ⟨b, hb⟩ := Option.isSome_iff_exists.mp hs
    rw [hb, Option.getD_some]
  ⟨hr, h, (sig_tuple_and_wire_length sample_sig _ h).2.2.2.2.2.2.2.1⟩

/-! ## Comb tables -/

/-- A well-formed comb under the cap holds at most `GOO_MAX_COMB_SIZE`
group elements. -/
theorem goo_comb_points_le (c : goo_comb_t) (hwf : goo_comb_wf c)
    (hcap : goo_comb_capped c) : c.items.length ≤ GOO_MAX_COMB_SIZE := by
  unfold goo_comb_wf at hwf
  unfold goo_comb_capped at hcap
  rw [← hwf] at hcap
  exact_mod_cast hcap

/-- The number of comb items in use is `combs_len`. -/
theorem goo_group_combs_length {D S : Type} (G : goo_group_t D S)
    (hwf : goo_group_wf G) : (goo_group_combs G).length = G.combs_len.toNat := by
  obtain ⟨_, _, _, _, _, _, _, hlen, _, h0, h2⟩ := hwf
  unfold goo_group_combs
  rw [List.length_take, hlen]
  omega

/-- C8, as the spec states it, fails: the handle `full_group` has its
arrays at their declared sizes and every comb within the cap of 512 points
(each comb with size = points_per_add * adds_per_shift * shifts = 512 and
bits_per_window * shifts = 2048 = GOO_EXP_BITS), yet its comb tables hold
2048 group elements, more than 2 * 512, that is 1048576 bytes of element
data, more than 524288. -/
theorem comb_bound_counterexample :
    goo_group_wf full_group ∧ goo_group_combs_capped full_group ∧
    full_comb.size = full_comb.points_per_add * full_comb.adds_per_shift * full_comb.shifts ∧
    full_comb.bits_per_window * full_comb.shifts = (GOO_EXP_BITS : Int) ∧
    goo_group_comb_points full_group = 2048 ∧
    ¬ (goo_group_comb_points full_group ≤ 2 * GOO_MAX_COMB_SIZE) ∧
    goo_group_comb_bytes full_group = 1048576 ∧
    ¬ (goo_group_comb_bytes full_group ≤ 2 * 512 * GOO_MAX_RSA_BYTES) := by
  decide!

/-- C8, amended: for every group handle whose combs each respect the cap of
GOO_MAX_COMB_SIZE = 512 points, each comb item in use (its g comb and its h
comb) holds at most 2 * 512 group elements, and the comb tables of the
handle (all goo_comb_t in combs[0..combs_len), combs_len <= 2) hold at most
combs_len * 2 * 512 <= 2 * 2 * 512 = 2048 group elements in total, that is
at most 2048 * GOO_MAX_RSA_BYTES = 1048576 bytes = 1 MiB of element data;
the bound of 2 * 512 elements, 524288 bytes = 512 KiB, holds for a handle
with combs_len <= 1. -/
theorem comb_tables_bound {D S : Type} (G : goo_group_t D S)
    (hwf : goo_group_wf G) (hcap : goo_group_combs_capped G) :
    (∀ it ∈ goo_group_combs G, goo_comb_item_points it ≤ 2 * GOO_MAX_COMB_SIZE) ∧
    goo_group_comb_points G ≤ G.combs_len.toNat * (2 * GOO_MAX_COMB_SIZE) ∧
    goo_group_comb_points G ≤ 2 * 2 * GOO_MAX_COMB_SIZE ∧
    goo_group_comb_bytes G ≤ 2 * 2 * GOO_MAX_COMB_SIZE * GOO_MAX_RSA_BYTES ∧
    2 * 2 * GOO_MAX_COMB_SIZE * GOO_MAX_RSA_BYTES = 1048576 ∧
    (G.combs_len ≤ 1 →
      goo_group_comb_points G ≤ 2 * GOO_MAX_COMB_SIZE ∧
      goo_group_comb_bytes G ≤ 2 * GOO_MAX_COMB_SIZE * GOO_MAX_RSA_BYTES ∧
      2 * GOO_MAX_COMB_SIZE * GOO_MAX_RSA_BYTES = 524288) := by
  have hitem : ∀ it ∈ goo_group_combs G,
      goo_comb_item_points it ≤ 2 * GOO_MAX_COMB_SIZE := by
    intro it hit
    obtain ⟨hgw, hgc, hhw, hhc⟩ := hcap it hit
    have hg := goo_comb_points_le it.g hgw hgc
    have hh := goo_comb_points_le it.h hhw hhc
    unfold goo_comb_item_points
    omega
  have hsum : goo_group_comb_points G ≤ G.combs_len.toNat * (2 * GOO_MAX_COMB_SIZE) := by
    unfold goo_group_comb_points
    have h := List.sum_le_card_nsmul ((goo_group_combs G).map goo_comb_item_points)
      (2 * GOO_MAX_COMB_SIZE) (by
        intro x hx
        obtain ⟨it, hit, rfl⟩ := List.mem_map.mp hx
        exact hitem it hit)
    rw [List.length_map, goo_group_combs_length G hwf, smul_eq_mul] at h
    exact h
  have hlen2 : G.combs_len.toNat ≤ 2 := by
    obtain ⟨_, _, _, _, _, _, _, _, _, h0, h2⟩ := hwf
    omega
  have hcapval : GOO_MAX_COMB_SIZE = 512 := rfl
  have hbytes : GOO_MAX_RSA_BYTES = 512 := by decide
  have htot : goo_group_comb_points G ≤ 2 * 2 * GOO_MAX_COMB_SIZE := by
    calc goo_group_comb_points G ≤ G.combs_len.toNat * (2 * GOO_MAX_COMB_SIZE) := hsum
      _ ≤ 2 * (2 * GOO_MAX_COMB_SIZE) := Nat.mul_le_mul_right _ hlen2
      _ = 2 * 2 * GOO_MAX_COMB_SIZE := by ring
  refine ⟨hitem, hsum, htot, ?_, by decide, ?_⟩
  · unfold goo_group_comb_bytes
    exact Nat.mul_le_mul_right _ htot
  · intro h1
    have hlen1 : G.combs_len.toNat ≤ 1 := by omega
    have hp : goo_group_comb_points G ≤ 2 * GOO_MAX_COMB_SIZE := by
      calc goo_group_comb_points G ≤ G.combs_len.toNat * (2 * GOO_MAX_COMB_SIZE) := hsum
        _ ≤ 1 * (2 * GOO_MAX_COMB_SIZE) := Nat.mul_le_mul_right _ hlen1
        _ = 2 * GOO_MAX_COMB_SIZE := by ring
    refine ⟨hp, ?_, by decide⟩
    unfold goo_group_comb_bytes
    exact Nat.mul_le_mul_right _ hp

/-- C8, amended, at the handle `full_group`: its comb tables hold at most
2048 group elements and 1048576 bytes of element data. -/
theorem comb_tables_bound_witness :
    goo_group_wf full_group ∧ goo_group_combs_capped full_group ∧
    goo_group_comb_points full_group ≤ 2 * 2 * GOO_MAX_COMB_SIZE ∧
    goo_group_comb_bytes full_group ≤ 2 * 2 * GOO_MAX_COMB_SIZE * GOO_MAX_RSA_BYTES :=
  have hwf : goo_group_wf full_group := by decide!
  have hcap : goo_group_combs_capped full_group := by decide!
  have h := comb_tables_bound full_group hwf hcap
  ⟨hwf, hcap, h.2.2.1, h.2.2.2.1⟩

/-! ## Digit sums -/

/-- C9: for each shipped modulus, the sum of the decimal digits of the
integer obtained by reading its byte array big-endian equals the Digit Sum
documented above it: 2776 for GOO_AOL1, 5522 for GOO_AOL2, 2738 for
GOO_RSA2048 and 2680 for GOO_RSA617. -/
theorem moduli_digit_sums :
    (Nat.digits 10 (be_uint GOO_AOL1)).sum = GOO_AOL1_DIGIT_SUM ∧
    (Nat.digits 10 (be_uint GOO_AOL2)).sum = GOO_AOL2_DIGIT_SUM ∧
    (Nat.digits 10 (be_uint GOO_RSA2048)).sum = GOO_RSA2048_DIGIT_SUM ∧
    (Nat.digits 10 (be_uint GOO_RSA617)).sum = GOO_RSA617_DIGIT_SUM ∧
    GOO_AOL1_DIGIT_SUM = 2776 ∧ GOO_AOL2_DIGIT_SUM = 5522 ∧
    GOO_RSA2048_DIGIT_SUM = 2738 ∧ GOO_RSA617_DIGIT_SUM = 2680 := by
  refine ⟨?_, ?_, ?_, ?_, rfl, rfl, rfl, rfl⟩
  · rw [← dec_digit_sum_eq 1300 _ (by decide!)]
    decide!
  · rw [← dec_digit_sum_eq 1300 _ (by decide!)]
    decide!
  · rw [← dec_digit_sum_eq 1300 _ (by decide!)]
    decide!
  · rw [← dec_digit_sum_eq 1300 _ (by decide!)]
    decide!

/-! ## Distinct tags -/

/-- A tag of 32 bytes is the first 32 bytes of any transcript it starts. -/
theorem take_tag_append (t x : List Nat) (h : t.length = 32) :
    (t ++ x).take 32 = t := by
  rw [← h]
  exact List.take_left' rfl

/-- C10: the eight domain-separation tags are each exactly 32 bytes long and
pairwise distinct, so two transcripts seeded under different tags never
start with the same 32-byte prefix. -/
theorem tags_length_and_distinct :
    goo_tags.length = 8 ∧
    (∀ t ∈ goo_tags, t.length = 32 ∧ all_bytes t = true) ∧
    goo_tags.Pairwise (fun t1 t2 => t1 ≠ t2) ∧
    (∀ t1 ∈ goo_tags, ∀ t2 ∈ goo_tags, t1 ≠ t2 →
      ∀ x y : List Nat, (t1 ++ x).take 32 ≠ (t2 ++ y).take 32) := by
  have hlen : ∀ t ∈ goo_tags, t.length = 32 ∧ all_bytes t = true := by decide!
  refine ⟨rfl, hlen, by decide!, ?_⟩
  intro t1 h1 t2 h2 hne x y heq
  rw [take_tag_append t1 x (hlen t1 h1).1, take_tag_append t2 y (hlen t2 h2).1] at heq
  exact hne heq

/-- C10 at two concrete transcripts: one seeded under the signing tag and one
under the derivation tag differ within their first 32 bytes. -/
theorem tags_length_and_distinct_witness :
    (GOO_PRNG_SIGN ++ [1, 2, 3]).take 32 ≠ (GOO_PRNG_DERIVE ++ [1, 2, 3]).take 32 :=
  tags_length_and_distinct.2.2.2 GOO_PRNG_SIGN (by simp [goo_tags])
    GOO_PRNG_DERIVE (by simp [goo_tags]) (by decide!) [1, 2, 3] [1, 2, 3]

end Goo
